import Mathlib

set_option linter.unusedVariables false

/-!
Verification development for the ticketboat-backend repository.

Two parts of the repository are embedded:

1. The account rebuild engine (`rebuild_accounts`).  Its implementation
   (`app.db.ams_db` / `app.model.ams_models`) is not part of the repository
   snapshot; only its caller `verify_rebuild.py` is.  The engine is therefore
   modelled from the specification: a request validator, an entity linker, a
   per-request atomic executor, and the audit note composer with its exact
   marker formats `from "{oldNickname}"` / `rebuilt on "{newNickname}"`, which
   `verify_rebuild.py` checks by substring.

2. The shadows-config database accessors `update_config` and `delete_config`
   from `src/app/db/shadows_config_db.py`, embedded with the database
   interaction (fetch / execute outcome) as an explicit parameter.
-/

namespace TicketBoat

/-- Numeric value of a list of decimal digits, most significant first,
accumulator style. -/
def natOfDigits : List Char → Nat → Nat
  | [], acc => acc
  | c :: cs, acc => natOfDigits cs (acc * 10 + (c.toNat - 48))

/-- Decimal digit test on a character. -/
def isDigitChar (c : Char) : Bool := 48 ≤ c.toNat && c.toNat ≤ 57

/-- Modelled from the spec: parsing of the old-account reference string
(`RebuildRequest.old_account_id`, a string identifier in `verify_rebuild.py`).
An empty or non-numeric reference is malformed and parses to `none`. -/
def parseRef? (s : String) : Option Nat :=
  if s.data.isEmpty then none
  else if s.data.all isDigitChar then some (natOfDigits s.data 0) else none

/-- Whitespace test (space, tab, newline, carriage return). -/
def isSpaceChar (c : Char) : Bool :=
  c.toNat = 32 || c.toNat = 9 || c.toNat = 10 || c.toNat = 13

/-- Modelled from the spec: a nickname is blank when it is empty or
whitespace-only. -/
def isBlankStr (s : String) : Bool := s.data.all isSpaceChar

/-- Kernel-reducible emptiness test for strings. -/
def strIsEmpty (s : String) : Bool := s.data.isEmpty

/-- Modelled from the spec: the error taxonomy of the rebuild engine
(section 7): ValidationError, LinkError, StorageError, NotFoundError. -/
inductive RebuildError where
  | validationError (field : String)
  | linkError (kind : String)
  | notFoundError
  | storageError (msg : String)
deriving Repr, DecidableEq

/-- Modelled from the spec: the account entity (table `ams.ams_account` in
`verify_rebuild.py`): immutable identifier, nickname, free-text audit notes,
zero-or-one link to each of company / person / address / phone / email, and a
tag set. -/
structure Account where
  id : Nat
  nickname : String
  notes : String
  company_id : Option Nat
  ams_person_id : Option Nat
  ams_address_id : Option Nat
  phone_number_id : Option Nat
  email_id : Option Nat
  tags : List String
deriving Repr, DecidableEq

/-- Modelled from the spec: `RebuildAccountRequestItem` as constructed by
`verify_rebuild.py`: required old-account reference and new nickname, optional
entity links, tag list. -/
structure RebuildAccountRequestItem where
  old_account_id : String
  new_nickname : String
  company_id : Option Nat
  ams_person_id : Option Nat
  ams_address_id : Option Nat
  phone_number_id : Option Nat
  email_id : Option Nat
  tags : List String
deriving Repr, DecidableEq

/-- Modelled from the spec: the attribute bundle the entity linker produces,
ready for account creation (section 4.2). -/
structure NewAccountAttributes where
  nickname : String
  company_id : Option Nat
  ams_person_id : Option Nat
  ams_address_id : Option Nat
  phone_number_id : Option Nat
  email_id : Option Nat
  tags : List String
deriving Repr, DecidableEq

/-- Modelled from the spec: the storage state the rebuild engine runs
against: the account table, the identifier pools of the five linkable entity
kinds, and a fresh-identifier counter standing for system-assigned ids. -/
structure DB where
  accounts : List Account
  persons : List Nat
  addresses : List Nat
  companies : List Nat
  phones : List Nat
  emails : List Nat
  nextId : Nat
deriving Repr, DecidableEq

/-- Lookup of an account row by identifier (first match). -/
def DB.findAccount (db : DB) (i : Nat) : Option Account :=
  db.accounts.find? (fun a => a.id == i)

/-- Storage well-formedness: every stored account id is below the
fresh-identifier counter, so a newly assigned id never collides. -/
def DB.WF (db : DB) : Prop := ∀ a ∈ db.accounts, a.id < db.nextId

/-- Modelled from the spec: the forward audit marker written into the new
account's notes, exactly the literal pattern checked by `verify_rebuild.py`. -/
def composeForward (oldNickname : String) : String :=
  "from \"" ++ oldNickname ++ "\""

/-- Modelled from the spec: the backward audit marker written into the old
account's notes, exactly the literal pattern checked by `verify_rebuild.py`. -/
def composeBackward (newNickname : String) : String :=
  "rebuilt on \"" ++ newNickname ++ "\""

/-- Modelled from the spec: `merge` appends the new fragment to the existing
notes without discarding prior content (section 4.4), separating with a
newline when the existing notes are nonempty. -/
def merge (existing fragment : String) : String :=
  existing ++ (if strIsEmpty existing then fragment else "\n" ++ fragment)

/-- Substring containment on note text: the needle occurs contiguously
somewhere in the haystack. -/
def notesContain (hay needle : String) : Prop :=
  ∃ pre post : String, hay = pre ++ needle ++ post

/-- Modelled from the spec: the request validator (section 4.1): rejects an
empty/malformed old-account reference and an empty or whitespace-only new
nickname; the optional entity links play no role.  Pure: a function of the
request alone, it takes no storage state and mutates nothing. -/
def validate (req : RebuildAccountRequestItem) : Except RebuildError Nat :=
  match parseRef? req.old_account_id with
  | none => Except.error (RebuildError.validationError "old_account_id")
  | some oldId =>
    if isBlankStr req.new_nickname then
      Except.error (RebuildError.validationError "new_nickname")
    else Except.ok oldId

/-- Modelled from the spec: resolution of one optional entity link: an absent
reference resolves to absent, a present reference must exist in the pool or
the request fails with a `LinkError` naming the entity kind (section 4.2). -/
def resolveLink (ref : Option Nat) (pool : List Nat) (kind : String) :
    Except RebuildError (Option Nat) :=
  match ref with
  | none => Except.ok none
  | some i =>
    if pool.contains i then Except.ok (some i)
    else Except.error (RebuildError.linkError kind)

/-- Modelled from the spec: the entity linker (section 4.2): resolves each
optional reference against storage and assembles the new account's attribute
bundle; read-only. -/
def resolve (db : DB) (req : RebuildAccountRequestItem) :
    Except RebuildError NewAccountAttributes :=
  match resolveLink req.company_id db.companies "company" with
  | Except.error e => Except.error e
  | Except.ok c =>
  match resolveLink req.ams_person_id db.persons "person" with
  | Except.error e => Except.error e
  | Except.ok p =>
  match resolveLink req.ams_address_id db.addresses "address" with
  | Except.error e => Except.error e
  | Except.ok ad =>
  match resolveLink req.phone_number_id db.phones "phone_number" with
  | Except.error e => Except.error e
  | Except.ok ph =>
  match resolveLink req.email_id db.emails "email" with
  | Except.error e => Except.error e
  | Except.ok em =>
  Except.ok
    { nickname := req.new_nickname, company_id := c, ams_person_id := p,
      ams_address_id := ad, phone_number_id := ph, email_id := em,
      tags := req.tags }

/-- Append the backward marker to the old account's notes, in place in the
account table (all rows with the old id; ids are unique under `DB.WF`). -/
def annotateOld (accs : List Account) (oldId : Nat) (backward : String) :
    List Account :=
  accs.map fun a =>
    if a.id == oldId then { a with notes := merge a.notes backward } else a

/-- The new account row: created with empty notes, then the forward marker is
merged in. -/
def mkNewAccount (newId : Nat) (attrs : NewAccountAttributes)
    (forward : String) : Account :=
  { id := newId, nickname := attrs.nickname, notes := merge "" forward,
    company_id := attrs.company_id, ams_person_id := attrs.ams_person_id,
    ams_address_id := attrs.ams_address_id,
    phone_number_id := attrs.phone_number_id, email_id := attrs.email_id,
    tags := attrs.tags }

/-- Modelled from the spec: the per-request transaction executor
(section 4.3): look up the old account (`NotFoundError` if absent), enforce
nickname uniqueness (a `StorageError` constraint violation), then atomically
insert the new row with the forward marker and append the backward marker to
the old account's notes.  Returns the updated storage and the new id, or an
error with no state change. -/
def executeOne (db : DB) (oldId : Nat) (attrs : NewAccountAttributes) :
    Except RebuildError (DB × Nat) :=
  match db.findAccount oldId with
  | none => Except.error RebuildError.notFoundError
  | some oldAcc =>
    if db.accounts.any (fun a => a.nickname == attrs.nickname) then
      Except.error (RebuildError.storageError "nickname uniqueness violated")
    else
      Except.ok
        ({ db with
            accounts :=
              annotateOld db.accounts oldId (composeBackward attrs.nickname)
                ++ [mkNewAccount db.nextId attrs
                      (composeForward oldAcc.nickname)],
            nextId := db.nextId + 1 },
         db.nextId)

/-- Modelled from the spec: one rebuild request end to end: validate, resolve
links, execute.  Any failure leaves the storage untouched and becomes this
request's result. -/
def rebuildOne (db : DB) (req : RebuildAccountRequestItem) :
    DB × Except RebuildError Nat :=
  match validate req with
  | Except.error e => (db, Except.error e)
  | Except.ok oldId =>
    match resolve db req with
    | Except.error e => (db, Except.error e)
    | Except.ok attrs =>
      match executeOne db oldId attrs with
      | Except.error e => (db, Except.error e)
      | Except.ok p => (p.1, Except.ok p.2)

/-- Modelled from the spec: the batch entry point `rebuild_accounts`
(`app.db.ams_db`): processes the requests sequentially in input order, one
result per request, a failure never aborting the batch. -/
def rebuild_accounts (db : DB) :
    List RebuildAccountRequestItem → DB × List (Except RebuildError Nat)
  | [] => (db, [])
  | r :: rs =>
    let step := rebuildOne db r
    let rest := rebuild_accounts step.1 rs
    (rest.1, step.2 :: rest.2)

/-- Row shape returned by the shadows_config `RETURNING` clause
(`src/app/db/shadows_config_db.py`).  The numeric `config_value` is carried
as a rational (the Python `float(...)` conversion is modelled as identity);
timestamps are abstract instants. -/
structure ShadowsConfigRow where
  id : Int
  exchange : String
  override_type : String
  override_value : String
  config_type : String
  config_value : Option Rat
  created_at : Option Nat
  updated_at : Option Nat
deriving Repr, DecidableEq

/-- Dictionary shape the shadows_config accessors return to their callers. -/
structure ShadowsConfigOut where
  id : Int
  exchange : String
  override_type : String
  override_value : String
  config_type : String
  config_value : Option Rat
  created_at : Option String
  updated_at : Option String
deriving Repr, DecidableEq

/-- Timestamp rendering (`.isoformat()` on a concrete instant). -/
def isoFormat (t : Nat) : String := toString t

/-- The dict comprehension shared by the shadows_config accessors:
`config_value` passes through `float(...)` when present, timestamps are
rendered when present. -/
def shadowsRowToDict (row : ShadowsConfigRow) : ShadowsConfigOut :=
  { id := row.id, exchange := row.exchange,
    override_type := row.override_type,
    override_value := row.override_value, config_type := row.config_type,
    config_value := row.config_value,
    created_at := row.created_at.map isoFormat,
    updated_at := row.updated_at.map isoFormat }

/-- Embedding of `update_config` from `src/app/db/shadows_config_db.py`.
The database interaction is the explicit `fetched` parameter: the outcome of
`fetch_one` on the `UPDATE ... RETURNING` statement (`Except.ok none` when the
UPDATE matched no row).  The body raises `Config with id ... not found` when
no row comes back; the surrounding `except` block catches every failure,
including that one and any database error, and re-raises it wrapped as
`Error updating config {config_id}` — which is therefore the observable
error in both failure branches below. -/
def update_config (config_id : Int) (config_value : Rat)
    (fetched : Except String (Option ShadowsConfigRow)) :
    Except String ShadowsConfigOut :=
  match fetched with
  | Except.error _ =>
      Except.error ("Error updating config " ++ toString config_id)
  | Except.ok none =>
      Except.error ("Error updating config " ++ toString config_id)
  | Except.ok (some row) => Except.ok (shadowsRowToDict row)

/-- Embedding of `delete_config` from `src/app/db/shadows_config_db.py`.
The database interaction is the explicit `execResult` parameter: the outcome
of `execute` on the DELETE statement, carrying the number of rows the DELETE
matched when it ran.  The code never inspects that count — there is no
existence check — so a DELETE matching zero rows returns normally; only a
failure of `execute` itself is caught and re-raised wrapped as
`Error deleting config {config_id}`. -/
def delete_config (config_id : Int) (execResult : Except String Nat) :
    Except String Unit :=
  match execResult with
  | Except.error _ =>
      Except.error ("Error deleting config " ++ toString config_id)
  | Except.ok _ => Except.ok ()

/-- Concrete fixture: the pre-existing account of the spec's worked example. -/
def oldAcct : Account :=
  { id := 0, nickname := "Acct-Old", notes := "seed note",
    company_id := none, ams_person_id := none, ams_address_id := none,
    phone_number_id := none, email_id := none, tags := [] }

/-- Concrete fixture: storage holding one account and one entity of each
linkable kind. -/
def sampleDB : DB :=
  { accounts := [oldAcct], persons := [10], addresses := [11],
    companies := [12], phones := [13], emails := [14], nextId := 1 }

/-- Concrete fixture: a well-formed rebuild request against `sampleDB`. -/
def goodReq : RebuildAccountRequestItem :=
  { old_account_id := "0", new_nickname := "Acct-New",
    company_id := some 12, ams_person_id := some 10, ams_address_id := none,
    phone_number_id := none, email_id := none, tags := [] }

/-- Concrete fixture: a second well-formed request against the same old
account, with a different new nickname. -/
def goodReq2 : RebuildAccountRequestItem :=
  { old_account_id := "0", new_nickname := "Acct-New-2",
    company_id := none, ams_person_id := none, ams_address_id := none,
    phone_number_id := none, email_id := none, tags := [] }

/-- Concrete fixture: a request with a whitespace-only new nickname. -/
def blankReq : RebuildAccountRequestItem :=
  { old_account_id := "0", new_nickname := "   ",
    company_id := none, ams_person_id := none, ams_address_id := none,
    phone_number_id := none, email_id := none, tags := [] }

/-- Concrete fixture: a request referencing a nonexistent company. -/
def badLinkReq : RebuildAccountRequestItem :=
  { old_account_id := "0", new_nickname := "Linked",
    company_id := some 99, ams_person_id := none, ams_address_id := none,
    phone_number_id := none, email_id := none, tags := [] }

/-- Containment is reflexive. -/
theorem notesContain_refl (s : String) : notesContain s s :=
  ⟨"", "", by rw [String.empty_append, String.append_empty]⟩

/-- Containment survives prepending text. -/
theorem notesContain_appendLeft (a b n : String) (h : notesContain b n) :
    notesContain (a ++ b) n := by
  obtain ⟨p, q, rfl⟩ := h
  exact ⟨a ++ p, q, by simp [String.append_assoc]⟩

/-- Containment survives appending text. -/
theorem notesContain_appendRight (a b n : String) (h : notesContain a n) :
    notesContain (a ++ b) n := by
  obtain ⟨p, q, rfl⟩ := h
  exact ⟨p, q ++ b, by simp [String.append_assoc]⟩

/-- Containment is transitive. -/
theorem notesContain_trans (a b n : String) (hab : notesContain a b)
    (hbn : notesContain b n) : notesContain a n := by
  obtain ⟨p, q, rfl⟩ := hab
  obtain ⟨r, s, rfl⟩ := hbn
  exact ⟨p ++ r, s ++ q, by simp [String.append_assoc]⟩

/-- Merging never discards the existing notes. -/
theorem merge_keeps_existing (e f : String) : notesContain (merge e f) e := by
  unfold merge
  exact notesContain_appendRight e _ e (notesContain_refl e)

/-- Merging makes the fragment part of the notes. -/
theorem merge_adds_fragment (e f : String) : notesContain (merge e f) f := by
  unfold merge
  cases h : strIsEmpty e
  · simp only [h, Bool.false_eq_true, if_false]
    exact notesContain_appendLeft e _ f
      (notesContain_appendLeft "\n" f f (notesContain_refl f))
  · simp only [h, if_true]
    exact notesContain_appendLeft e f f (notesContain_refl f)

/-- Appending the backward marker touches no account identifier. -/
theorem find?_annotate_some :
    ∀ (accs : List Account) (oldId : Nat) (b : String) (a : Account),
      accs.find? (fun x => x.id == oldId) = some a →
      (annotateOld accs oldId b).find? (fun x => x.id == oldId) =
        some { a with notes := merge a.notes b }
  | [], oldId, b, a, h => by simp [List.find?] at h
  | x :: xs, oldId, b, a, h => by
    unfold annotateOld
    rw [List.map_cons]
    cases hx : (x.id == oldId)
    · simp only [List.find?, hx] at h
      simp only [hx, Bool.false_eq_true, if_false, List.find?, hx]
      exact find?_annotate_some xs oldId b a h
    · simp only [List.find?, hx] at h
      cases h
      simp only [hx, if_true, List.find?]
  termination_by accs => accs.length

/-- A list in which no account carries identifier `i` still has none after
annotating, since annotation keeps every identifier. -/
theorem find?_annotate_none :
    ∀ (accs : List Account) (oldId : Nat) (b : String) (i : Nat),
      (∀ a ∈ accs, (a.id == i) = false) →
      (annotateOld accs oldId b).find? (fun x => x.id == i) = none
  | [], oldId, b, i, h => rfl
  | x :: xs, oldId, b, i, h => by
    unfold annotateOld
    rw [List.map_cons]
    have hx := h x (List.mem_cons_self x xs)
    have hxs : ∀ a ∈ xs, (a.id == i) = false :=
      fun a ha => h a (List.mem_cons_of_mem x ha)
    cases hc : (x.id == oldId)
    · simp only [hc, Bool.false_eq_true, if_false, List.find?, hx]
      exact find?_annotate_none xs oldId b i hxs
    · simp only [hc, if_true, List.find?]
      simp only [Account.mk.injEq] at hx ⊢
      simp only [hx]
      exact find?_annotate_none xs oldId b i hxs
  termination_by accs => accs.length

/-- A successful validation means the reference parsed and the nickname is
not blank, and gives the parsed identifier back. -/
theorem validate_ok_elim (req : RebuildAccountRequestItem) (oldId : Nat)
    (h : validate req = Except.ok oldId) :
    parseRef? req.old_account_id = some oldId ∧
    isBlankStr req.new_nickname = false := by
  unfold validate at h
  cases hp : parseRef? req.old_account_id with
  | none => rw [hp] at h; cases h
  | some v =>
    rw [hp] at h
    cases hb : isBlankStr req.new_nickname
    · rw [hb] at h
      simp only [Bool.false_eq_true, if_false, Except.ok.injEq] at h
      cases h
      exact ⟨rfl, rfl⟩
    · rw [hb] at h
      simp at h

/-- A successfully resolved attribute bundle carries the request's new
nickname. -/
theorem resolve_ok_nickname (db : DB) (req : RebuildAccountRequestItem)
    (attrs : NewAccountAttributes) (h : resolve db req = Except.ok attrs) :
    attrs.nickname = req.new_nickname := by
  unfold resolve at h
  cases h1 : resolveLink req.company_id db.companies "company" <;> rw [h1] at h
  case error => cases h
  cases h2 : resolveLink req.ams_person_id db.persons "person" <;> rw [h2] at h
  case error => cases h
  cases h3 : resolveLink req.ams_address_id db.addresses "address" <;>
    rw [h3] at h
  case error => cases h
  cases h4 : resolveLink req.phone_number_id db.phones "phone_number" <;>
    rw [h4] at h
  case error => cases h
  cases h5 : resolveLink req.email_id db.emails "email" <;> rw [h5] at h
  case error => cases h
  cases h
  rfl

/-- One request either leaves the storage untouched or reports a new id. -/
theorem rebuildOne_state_or_ok (db : DB) (req : RebuildAccountRequestItem) :
    (rebuildOne db req).1 = db ∨ ∃ n, (rebuildOne db req).2 = Except.ok n := by
  cases hv : validate req with
  | error e => left; simp [rebuildOne, hv]
  | ok oldId =>
    cases hr : resolve db req with
    | error e => left; simp [rebuildOne, hv, hr]
    | ok attrs =>
      cases he : executeOne db oldId attrs with
      | error e => left; simp [rebuildOne, hv, hr, he]
      | ok p => right; exact ⟨p.2, by simp [rebuildOne, hv, hr, he]⟩

/-- A failing request leaves the storage exactly as it was. -/
theorem rebuildOne_error_state (db : DB) (req : RebuildAccountRequestItem)
    (e : RebuildError) (h : (rebuildOne db req).2 = Except.error e) :
    (rebuildOne db req).1 = db := by
  rcases rebuildOne_state_or_ok db req with h1 | ⟨n, h2⟩
  · exact h1
  · rw [h2] at h
    cases h

/-- Full decomposition of a successful rebuild: the validator parsed the
reference, the linker produced a bundle carrying the new nickname, the old
account was found, and the resulting storage is the annotated table plus the
new row. -/
theorem rebuildOne_ok_decomp (db : DB) (req : RebuildAccountRequestItem)
    (db2 : DB) (n : Nat) (h : rebuildOne db req = (db2, Except.ok n)) :
    ∃ oldId oldAcc attrs,
      parseRef? req.old_account_id = some oldId ∧
      validate req = Except.ok oldId ∧
      resolve db req = Except.ok attrs ∧
      attrs.nickname = req.new_nickname ∧
      db.findAccount oldId = some oldAcc ∧
      n = db.nextId ∧
      db2 = { db with
        accounts :=
          annotateOld db.accounts oldId (composeBackward req.new_nickname)
            ++ [mkNewAccount db.nextId attrs
                  (composeForward oldAcc.nickname)],
        nextId := db.nextId + 1 } := by
  cases hv : validate req with
  | error e => simp [rebuildOne, hv] at h
  | ok oldId =>
    cases hr : resolve db req with
    | error e => simp [rebuildOne, hv, hr] at h
    | ok attrs =>
      cases he : executeOne db oldId attrs with
      | error e => simp [rebuildOne, hv, hr, he] at h
      | ok p =>
        simp only [rebuildOne, hv, hr, he] at h
        rw [Prod.mk.injEq] at h
        obtain ⟨hdb2, hn⟩ := h
        have hn2 : p.2 = n := by
          injection hn
        cases hf : db.findAccount oldId with
        | none =>
          simp only [executeOne, hf] at he
          cases he
        | some oldAcc =>
          simp only [executeOne, hf] at he
          cases hu : db.accounts.any (fun a => a.nickname == attrs.nickname)
          · simp only [hu, Bool.false_eq_true, if_false,
              Except.ok.injEq] at he
            refine ⟨oldId, oldAcc, attrs, (validate_ok_elim req oldId hv).1,
              rfl, rfl, resolve_ok_nickname db req attrs hr, hf, ?_, ?_⟩
            · rw [← hn2, ← he]
            · rw [← hdb2, ← he]
              rw [← (resolve_ok_nickname db req attrs hr)]
          · simp only [hu, if_true] at he
            cases he

/-- After a successful rebuild the old account is still found under its
identifier, its notes being exactly the merge of its previous notes with the
backward marker. -/
theorem rebuildOne_ok_oldNote (db : DB) (req : RebuildAccountRequestItem)
    (db2 : DB) (n : Nat) (h : rebuildOne db req = (db2, Except.ok n)) :
    ∃ oldId oldAcc,
      parseRef? req.old_account_id = some oldId ∧
      db.findAccount oldId = some oldAcc ∧
      db2.findAccount oldId =
        some { oldAcc with
          notes := merge oldAcc.notes (composeBackward req.new_nickname) } := by
  obtain ⟨oldId, oldAcc, attrs, hp, hv, hr, hnick, hf, hn, hdb2⟩ :=
    rebuildOne_ok_decomp db req db2 n h
  refine ⟨oldId, oldAcc, hp, hf, ?_⟩
  subst hdb2
  show (annotateOld db.accounts oldId (composeBackward req.new_nickname) ++
      [mkNewAccount db.nextId attrs (composeForward oldAcc.nickname)]).find?
      (fun a => a.id == oldId) = _
  rw [List.find?_append,
    find?_annotate_some db.accounts oldId (composeBackward req.new_nickname)
      oldAcc hf]
  rfl

/-- After a successful rebuild under well-formed storage, both rows are found
and carry exactly the merged note texts: the new account's notes are the
forward marker merged into empty notes, the old account's notes are the
backward marker merged into its previous notes. -/
theorem rebuildOne_ok_markers (db : DB) (req : RebuildAccountRequestItem)
    (db2 : DB) (n : Nat) (hwf : DB.WF db)
    (h : rebuildOne db req = (db2, Except.ok n)) :
    ∃ oldId oldAcc newAcc oldAcc2,
      parseRef? req.old_account_id = some oldId ∧
      db.findAccount oldId = some oldAcc ∧
      db2.findAccount n = some newAcc ∧
      db2.findAccount oldId = some oldAcc2 ∧
      newAcc.notes = merge "" (composeForward oldAcc.nickname) ∧
      oldAcc2.notes = merge oldAcc.notes (composeBackward req.new_nickname) := by
  obtain ⟨oldId, oldAcc, attrs, hp, hv, hr, hnick, hf, hn, hdb2⟩ :=
    rebuildOne_ok_decomp db req db2 n h
  have hnone : ∀ a ∈ db.accounts, (a.id == db.nextId) = false := by
    intro a ha
    simp only [beq_eq_false_iff_ne]
    exact Nat.ne_of_lt (hwf a ha)
  refine ⟨oldId, oldAcc,
    mkNewAccount db.nextId attrs (composeForward oldAcc.nickname),
    { oldAcc with
      notes := merge oldAcc.notes (composeBackward req.new_nickname) },
    hp, hf, ?_, ?_, rfl, rfl⟩
  · subst hdb2
    subst hn
    show (annotateOld db.accounts oldId (composeBackward req.new_nickname) ++
        [mkNewAccount db.nextId attrs (composeForward oldAcc.nickname)]).find?
        (fun a => a.id == db.nextId) =
      some (mkNewAccount db.nextId attrs (composeForward oldAcc.nickname))
    rw [List.find?_append,
      find?_annotate_none db.accounts oldId (composeBackward req.new_nickname)
        db.nextId hnone]
    simp [List.find?, mkNewAccount]
  · subst hdb2
    show (annotateOld db.accounts oldId (composeBackward req.new_nickname) ++
        [mkNewAccount db.nextId attrs (composeForward oldAcc.nickname)]).find?
        (fun a => a.id == oldId) = _
    rw [List.find?_append,
      find?_annotate_some db.accounts oldId (composeBackward req.new_nickname)
        oldAcc hf]
    rfl

/-- C1: for every successful rebuild of an old account into a new account,
the new account's notes contain the literal substring `from "{oldNickname}"`
and the old account's notes contain the literal substring
`rebuilt on "{newNickname}"`, with the nickname in double quotes. -/
theorem rebuild_marker_text (db : DB) (req : RebuildAccountRequestItem)
    (db2 : DB) (n : Nat) (hwf : DB.WF db)
    (h : rebuildOne db req = (db2, Except.ok n)) :
    ∃ oldId oldAcc newAcc oldAcc2,
      parseRef? req.old_account_id = some oldId ∧
      db.findAccount oldId = some oldAcc ∧
      db2.findAccount n = some newAcc ∧
      db2.findAccount oldId = some oldAcc2 ∧
      notesContain newAcc.notes ("from \"" ++ oldAcc.nickname ++ "\"") ∧
      notesContain oldAcc2.notes
        ("rebuilt on \"" ++ req.new_nickname ++ "\"") := by
  obtain ⟨oldId, oldAcc, newAcc, oldAcc2, hp, hf, hnew, hold, hne, hoe⟩ :=
    rebuildOne_ok_markers db req db2 n hwf h
  refine ⟨oldId, oldAcc, newAcc, oldAcc2, hp, hf, hnew, hold, ?_, ?_⟩
  · rw [hne]
    exact merge_adds_fragment "" (composeForward oldAcc.nickname)
  · rw [hoe]
    exact merge_adds_fragment oldAcc.notes (composeBackward req.new_nickname)

/-- Witness for C1 on the spec's worked example: rebuilding `Acct-Old`
into `Acct-New`. -/
theorem rebuild_marker_text_witness :
    ∃ oldId oldAcc newAcc oldAcc2,
      parseRef? goodReq.old_account_id = some oldId ∧
      sampleDB.findAccount oldId = some oldAcc ∧
      ((rebuildOne sampleDB goodReq).1).findAccount 1 = some newAcc ∧
      ((rebuildOne sampleDB goodReq).1).findAccount oldId = some oldAcc2 ∧
      notesContain newAcc.notes ("from \"" ++ oldAcc.nickname ++ "\"") ∧
      notesContain oldAcc2.notes
        ("rebuilt on \"" ++ goodReq.new_nickname ++ "\"") :=
  rebuild_marker_text sampleDB goodReq (rebuildOne sampleDB goodReq).1 1
    (by unfold DB.WF; decide) (by rfl)

/-- C2: after a rebuild request completes, the textual cross-reference is
never one-sided: either the new account exists with the forward marker and
the old account's notes carry the backward marker, or the storage is exactly
as before the request. -/
theorem rebuild_bidirectional (db : DB) (req : RebuildAccountRequestItem)
    (hwf : DB.WF db) :
    (∃ n oldId oldAcc newAcc oldAcc2,
      (rebuildOne db req).2 = Except.ok n ∧
      parseRef? req.old_account_id = some oldId ∧
      db.findAccount oldId = some oldAcc ∧
      ((rebuildOne db req).1).findAccount n = some newAcc ∧
      ((rebuildOne db req).1).findAccount oldId = some oldAcc2 ∧
      notesContain newAcc.notes ("from \"" ++ oldAcc.nickname ++ "\"") ∧
      notesContain oldAcc2.notes
        ("rebuilt on \"" ++ req.new_nickname ++ "\"")) ∨
    (rebuildOne db req).1 = db := by
  rcases rebuildOne_state_or_ok db req with hs | ⟨n, hok⟩
  · right; exact hs
  · left
    have hpair : rebuildOne db req = ((rebuildOne db req).1, Except.ok n) := by
      rw [← hok]
    obtain ⟨oldId, oldAcc, newAcc, oldAcc2, hp, hf, hnew, hold, hne, hoe⟩ :=
      rebuildOne_ok_markers db req (rebuildOne db req).1 n hwf hpair
    exact ⟨n, oldId, oldAcc, newAcc, oldAcc2, hok, hp, hf, hnew, hold,
      by rw [hne]; exact merge_adds_fragment "" (composeForward oldAcc.nickname),
      by rw [hoe];
         exact merge_adds_fragment oldAcc.notes
           (composeBackward req.new_nickname)⟩

/-- Witness for C2 at a concrete successful request. -/
theorem rebuild_bidirectional_witness :
    (∃ n oldId oldAcc newAcc oldAcc2,
      (rebuildOne sampleDB goodReq).2 = Except.ok n ∧
      parseRef? goodReq.old_account_id = some oldId ∧
      sampleDB.findAccount oldId = some oldAcc ∧
      ((rebuildOne sampleDB goodReq).1).findAccount n = some newAcc ∧
      ((rebuildOne sampleDB goodReq).1).findAccount oldId = some oldAcc2 ∧
      notesContain newAcc.notes ("from \"" ++ oldAcc.nickname ++ "\"") ∧
      notesContain oldAcc2.notes
        ("rebuilt on \"" ++ goodReq.new_nickname ++ "\"")) ∨
    (rebuildOne sampleDB goodReq).1 = sampleDB :=
  rebuild_bidirectional sampleDB goodReq (by unfold DB.WF; decide)

/-- C3: a rebuild request that fails at any step persists no state change:
the storage after the call, and in particular its account table, is exactly
the storage before it — no new row, no mutated note. -/
theorem rebuild_failure_rollback (db : DB) (req : RebuildAccountRequestItem)
    (e : RebuildError) (h : (rebuildOne db req).2 = Except.error e) :
    (rebuildOne db req).1 = db ∧
    ((rebuildOne db req).1).accounts = db.accounts := by
  have h1 := rebuildOne_error_state db req e h
  exact ⟨h1, by rw [h1]⟩

/-- Witness for C3 on the spec's example: a request referencing a
nonexistent company fails with a `LinkError` and changes nothing. -/
theorem rebuild_failure_rollback_witness :
    (rebuildOne sampleDB badLinkReq).1 = sampleDB ∧
    ((rebuildOne sampleDB badLinkReq).1).accounts = sampleDB.accounts :=
  rebuild_failure_rollback sampleDB badLinkReq
    (RebuildError.linkError "company") (by rfl)

/-- The batch returns exactly one result per request. -/
theorem rebuild_accounts_length :
    ∀ (reqs : List RebuildAccountRequestItem) (db : DB),
      (rebuild_accounts db reqs).2.length = reqs.length
  | [], db => rfl
  | r :: rs, db => by
    show (rebuild_accounts (rebuildOne db r).1 rs).2.length + 1 =
      rs.length + 1
    rw [rebuild_accounts_length rs]

/-- The i-th batch result is the outcome of running the i-th request on the
storage produced by the first i requests. -/
theorem rebuild_accounts_index :
    ∀ (reqs : List RebuildAccountRequestItem) (db : DB) (i : Nat)
      (h : i < reqs.length),
      ((rebuild_accounts db reqs).2).get? i =
        some ((rebuildOne ((rebuild_accounts db (reqs.take i)).1)
          (reqs.get ⟨i, h⟩)).2)
  | r :: rs, db, 0, h => rfl
  | r :: rs, db, i + 1, h => by
    have h2 : i < rs.length := Nat.lt_of_succ_lt_succ h
    exact rebuild_accounts_index rs (rebuildOne db r).1 i h2

/-- C4: for every batch of N requests, `rebuild_accounts` returns a result
list of exactly N entries (it is a total function, so it never raises), and
the i-th result is the outcome of the i-th request run on the state left by
the preceding requests — input order preserved. -/
theorem rebuild_accounts_order (db : DB)
    (reqs : List RebuildAccountRequestItem) :
    (rebuild_accounts db reqs).2.length = reqs.length ∧
    ∀ (i : Nat) (h : i < reqs.length),
      ((rebuild_accounts db reqs).2).get? i =
        some ((rebuildOne ((rebuild_accounts db (reqs.take i)).1)
          (reqs.get ⟨i, h⟩)).2) :=
  ⟨rebuild_accounts_length reqs db,
   fun i h => rebuild_accounts_index reqs db i h⟩

/-- Witness for C4 on a two-request batch. -/
theorem rebuild_accounts_order_witness :
    (rebuild_accounts sampleDB [goodReq, blankReq]).2.length = 2 ∧
    ((rebuild_accounts sampleDB [goodReq, blankReq]).2).get? 1 =
      some ((rebuildOne ((rebuild_accounts sampleDB [goodReq]).1)
        blankReq).2) :=
  ⟨(rebuild_accounts_order sampleDB [goodReq, blankReq]).1,
   (rebuild_accounts_order sampleDB [goodReq, blankReq]).2 1 (by decide)⟩

/-- C5: a failing request is isolated: deleting it from the batch leaves
every other request's outcome unchanged, so one request's failure never
aborts or alters the rest of the batch. -/
theorem rebuild_failure_isolated :
    ∀ (reqs : List RebuildAccountRequestItem) (db : DB) (i : Nat)
      (e : RebuildError),
      ((rebuild_accounts db reqs).2).get? i = some (Except.error e) →
      (rebuild_accounts db (reqs.eraseIdx i)).2 =
        ((rebuild_accounts db reqs).2).eraseIdx i
  | [], db, i, e, h => by
    cases i <;> exact Option.noConfusion h
  | r :: rs, db, 0, e, h => by
    have hr : (rebuildOne db r).2 = Except.error e := by
      have h0 : some ((rebuildOne db r).2) = some (Except.error e) := h
      exact Option.some.inj h0
    have hstate := rebuildOne_error_state db r e hr
    show (rebuild_accounts db rs).2 =
      (rebuild_accounts (rebuildOne db r).1 rs).2
    rw [hstate]
  | r :: rs, db, i + 1, e, h => by
    have htail : ((rebuild_accounts (rebuildOne db r).1 rs).2).get? i =
        some (Except.error e) := h
    have ih := rebuild_failure_isolated rs (rebuildOne db r).1 i e htail
    show (rebuildOne db r).2 ::
        (rebuild_accounts (rebuildOne db r).1 (rs.eraseIdx i)).2 =
      (rebuildOne db r).2 ::
        ((rebuild_accounts (rebuildOne db r).1 rs).2).eraseIdx i
    rw [ih]

/-- Witness for C5: removing the failing first request of a two-request
batch leaves the second request's outcome unchanged. -/
theorem rebuild_failure_isolated_witness :
    (rebuild_accounts sampleDB ([blankReq, goodReq].eraseIdx 0)).2 =
      ((rebuild_accounts sampleDB [blankReq, goodReq]).2).eraseIdx 0 :=
  rebuild_failure_isolated [blankReq, goodReq] sampleDB 0
    (RebuildError.validationError "new_nickname") (by rfl)

/-- C6: merging preserves the entire existing notes and adds the fragment;
consequently two successive rebuilds of the same old account under different
new nicknames leave the old account's notes containing both backward markers,
the second not overwriting the first. -/
theorem merge_accumulates :
    (∀ e f : String,
      notesContain (merge e f) e ∧ notesContain (merge e f) f) ∧
    (∀ (db : DB) (r1 r2 : RebuildAccountRequestItem) (db1 db2 : DB)
      (n1 n2 : Nat),
      rebuildOne db r1 = (db1, Except.ok n1) →
      rebuildOne db1 r2 = (db2, Except.ok n2) →
      r2.old_account_id = r1.old_account_id →
      r1.new_nickname ≠ r2.new_nickname →
      ∃ oldId acc2,
        parseRef? r1.old_account_id = some oldId ∧
        db2.findAccount oldId = some acc2 ∧
        notesContain acc2.notes
          ("rebuilt on \"" ++ r1.new_nickname ++ "\"") ∧
        notesContain acc2.notes
          ("rebuilt on \"" ++ r2.new_nickname ++ "\"")) := by
  constructor
  · intro e f
    exact ⟨merge_keeps_existing e f, merge_adds_fragment e f⟩
  · intro db r1 r2 db1 db2 n1 n2 h1 h2 hsame hdiff
    obtain ⟨oldId, oldAcc, hp1, hf1, hfound1⟩ :=
      rebuildOne_ok_oldNote db r1 db1 n1 h1
    obtain ⟨oldId2, oldAcc2, hp2, hf2, hfound2⟩ :=
      rebuildOne_ok_oldNote db1 r2 db2 n2 h2
    rw [hsame, hp1] at hp2
    have hid : oldId2 = oldId := (Option.some.inj hp2).symm
    rw [hid] at hf2 hfound2
    rw [hfound1] at hf2
    have hacc : oldAcc2 = { oldAcc with
        notes := merge oldAcc.notes (composeBackward r1.new_nickname) } :=
      (Option.some.inj hf2).symm
    refine ⟨oldId, _, hp1, hfound2, ?_, ?_⟩
    · have hk := merge_keeps_existing oldAcc2.notes
        (composeBackward r2.new_nickname)
      have hin : notesContain oldAcc2.notes
          (composeBackward r1.new_nickname) := by
        rw [hacc]
        exact merge_adds_fragment oldAcc.notes
          (composeBackward r1.new_nickname)
      exact notesContain_trans _ _ _ hk hin
    · exact merge_adds_fragment oldAcc2.notes
        (composeBackward r2.new_nickname)

/-- Witness for C6: rebuilding the same account twice under two different
new nicknames. -/
theorem merge_accumulates_witness :
    ∃ oldId acc2,
      parseRef? goodReq.old_account_id = some oldId ∧
      ((rebuildOne (rebuildOne sampleDB goodReq).1 goodReq2).1).findAccount
        oldId = some acc2 ∧
      notesContain acc2.notes
        ("rebuilt on \"" ++ goodReq.new_nickname ++ "\"") ∧
      notesContain acc2.notes
        ("rebuilt on \"" ++ goodReq2.new_nickname ++ "\"") :=
  merge_accumulates.2 sampleDB goodReq goodReq2
    (rebuildOne sampleDB goodReq).1
    (rebuildOne (rebuildOne sampleDB goodReq).1 goodReq2).1 1 2
    (by rfl) (by rfl) (by rfl) (by decide)

/-- C7: the validator is a pure function of the request alone: it returns a
ValidationError whenever the old-account reference is empty or malformed
(fails to parse), returns a ValidationError whenever the new nickname is
empty or whitespace-only, and accepts a request with well-formed reference
and nickname for every choice of the optional entity links, including none
at all. -/
theorem validate_contract :
    (∀ req : RebuildAccountRequestItem,
      parseRef? req.old_account_id = none →
      validate req =
        Except.error (RebuildError.validationError "old_account_id")) ∧
    (∀ req : RebuildAccountRequestItem,
      isBlankStr req.new_nickname = true →
      ∃ f, validate req = Except.error (RebuildError.validationError f)) ∧
    (∀ (req : RebuildAccountRequestItem) (oldId : Nat),
      parseRef? req.old_account_id = some oldId →
      isBlankStr req.new_nickname = false →
      ∀ c p a ph em,
        validate { req with
                   company_id := c, ams_person_id := p,
                   ams_address_id := a, phone_number_id := ph,
                   email_id := em } =
          Except.ok oldId) := by
  refine ⟨?_, ?_, ?_⟩
  · intro req h
    simp [validate, h]
  · intro req h
    cases hp : parseRef? req.old_account_id with
    | none => exact ⟨"old_account_id", by simp [validate, hp]⟩
    | some v => exact ⟨"new_nickname", by simp [validate, hp, h]⟩
  · intro req oldId hp hb c p a ph em
    simp [validate, hp, hb]

/-- Witness for C7: a concrete empty reference, a concrete whitespace-only
nickname, and a concrete acceptance with no optional links. -/
theorem validate_contract_witness :
    validate { goodReq with old_account_id := "" } =
      Except.error (RebuildError.validationError "old_account_id") ∧
    (∃ f, validate blankReq =
      Except.error (RebuildError.validationError f)) ∧
    validate { goodReq with
               company_id := none, ams_person_id := none,
               ams_address_id := none, phone_number_id := none,
               email_id := none } =
      Except.ok 0 :=
  ⟨validate_contract.1 { goodReq with old_account_id := "" } (by rfl),
   validate_contract.2.1 blankReq (by rfl),
   validate_contract.2.2 goodReq 0 (by rfl) (by rfl) none none none none
     none⟩

/-- C8: the audit markers are deterministic functions of the nickname alone:
equal nicknames give identical marker strings, and the marker is exactly the
literal pattern, with no timestamp or random element inside the text. -/
theorem compose_deterministic :
    (∀ n1 n2 : String, n1 = n2 →
      composeForward n1 = composeForward n2 ∧
      composeBackward n1 = composeBackward n2) ∧
    (∀ nick : String,
      composeForward nick = "from \"" ++ nick ++ "\"" ∧
      composeBackward nick = "rebuilt on \"" ++ nick ++ "\"") :=
  ⟨fun n1 n2 h => by rw [h]; exact ⟨rfl, rfl⟩, fun nick => ⟨rfl, rfl⟩⟩

/-- Witness for C8 at concrete nicknames. -/
theorem compose_deterministic_witness :
    composeForward "Acct-Old" = composeForward "Acct-Old" ∧
    composeBackward "Acct-New" = composeBackward "Acct-New" :=
  ⟨(compose_deterministic.1 "Acct-Old" "Acct-Old" rfl).1,
   (compose_deterministic.1 "Acct-New" "Acct-New" rfl).2⟩

/-- C9: when the UPDATE matches no row (the database fetch returns no
result), `update_config` fails with the wrapped error
`Error updating config {config_id}` and never returns a record. -/
theorem update_config_missing_row (config_id : Int) (v : Rat) :
    update_config config_id v (Except.ok none) =
      Except.error ("Error updating config " ++ toString config_id) ∧
    (update_config config_id v (Except.ok none)).isOk = false :=
  ⟨rfl, rfl⟩

/-- C10: `delete_config` performs no existence check: a DELETE matching zero
rows — or any number of rows — returns unit without raising, in contrast to
`update_config`, which fails for a missing id; only a failure of the
database execute itself is re-raised, wrapped as
`Error deleting config {config_id}`. -/
theorem delete_config_no_existence_check (config_id : Int) :
    delete_config config_id (Except.ok 0) = Except.ok () ∧
    (∀ matched : Nat, delete_config config_id (Except.ok matched) =
      Except.ok ()) ∧
    (∀ msg : String, delete_config config_id (Except.error msg) =
      Except.error ("Error deleting config " ++ toString config_id)) ∧
    (∀ v : Rat,
      (update_config config_id v (Except.ok none)).isOk = false) :=
  ⟨rfl, fun _ => rfl, fun _ => rfl, fun _ => rfl⟩

end TicketBoat
